import Mathlib

/-
Verification of the RidersDashboard reconciliation engine (src/main.py).

Shallow embedding conventions:
* a pandas DataFrame is a `List OrderRecord`; nullable string columns are
  `Option String` (NaN = `none`), numeric columns that `load_data` coerces
  with `fillna(0).astype(int)` are `Int`;
* the pandas `.str` accessor on a nullable column propagates `none`
  (`NaN.lower() == 'x'` is `False`, `NaN.isin([...])` is `False`,
  `.str.contains(p)` without `na=False` yields `NaN`);
* indexing a frame with a boolean mask that contains `NaN` raises a
  `ValueError` in pandas; this is modelled by `Except.error`;
* string lowering / trimming / substring search are re-implemented over
  `List Char` so that every definition evaluates by kernel reduction.
-/

/-- Character-list test: `pat` occurs at the head of `l`. -/
def listHasPre : List Char → List Char → Bool
  | [], _ => true
  | _ :: _, [] => false
  | p :: ps, c :: cs => p == c && listHasPre ps cs

/-- Character-list test: `pat` occurs somewhere inside `l` (Python `pat in s`). -/
def listHasSub (pat : List Char) : List Char → Bool
  | [] => listHasPre pat []
  | c :: cs => listHasPre pat (c :: cs) || listHasSub pat cs

/-- Python `pat in s` substring containment for strings. -/
def strHasSub (pat s : String) : Bool := listHasSub pat.toList s.toList

/-- ASCII lower-casing, as applied by `str.lower()` to the sheet's values. -/
def lowerStr (s : String) : String := String.mk (s.toList.map Char.toLower)

def isWsChar (c : Char) : Bool := c == ' ' || c == '\t' || c == '\n' || c == '\r'

/-- Python `str.strip()` on ASCII whitespace. -/
def trimStr (s : String) : String :=
  String.mk (((s.toList.dropWhile isWsChar).reverse.dropWhile isWsChar).reverse)

/-- One typed row of the snapshot produced by `load_data` (src/main.py lines 179-220),
restricted to the columns the reconciliation and filtering code reads. -/
structure OrderRecord where
  date : Option Nat
  rider : Option String
  invoiceType : Option String
  shiftType : Option String
  orderStatus : Option String
  totalAmount : Int
  payout : Int
  riderCashSubmitted : Int
  fiftyTen : Int
  branch : String
deriving DecidableEq

/-- `df['Total Amount'].sum()` over a record list. -/
def sumAmount (l : List OrderRecord) : Int := (l.map (fun r => r.totalAmount)).sum

/-- Line 573: `filtered_df['Invoice Type'].str.lower() == 'complaint order'`
(equality, not substring; a null invoice type compares `False`). -/
def complaintMask (r : OrderRecord) : Bool :=
  r.invoiceType.map lowerStr == some "complaint order"

/-- Lines 576-583: `.str.strip().str.lower().str.contains(pat, na=False)`. -/
def tabMask (pat : String) (r : OrderRecord) : Bool :=
  match r.invoiceType with
  | none => false
  | some t => strHasSub pat (lowerStr (trimStr t))

/-- Line 587: `~filtered_df['Invoice Type'].str.lower().isin(['complaint order', 'staff tab'])`
(a null invoice type is not `isin`, so its negation keeps the row). -/
def validMask (r : OrderRecord) : Bool :=
  !(match r.invoiceType with
    | none => false
    | some t => lowerStr t == "complaint order" || lowerStr t == "staff tab")

/-- Line 591: `filtered_df['Order Status'].str.lower() == 'cancel order'`. -/
def cancelMask (r : OrderRecord) : Bool :=
  r.orderStatus.map lowerStr == some "cancel order"

/-- Lines 597-602: `.str.lower().str.contains(pat)` WITHOUT `na=False`:
a null invoice type gives a null mask entry. -/
def payMaskOpt (pat : String) (r : OrderRecord) : Option Bool :=
  (r.invoiceType.map lowerStr).map (fun t => strHasSub pat t)

/-- pandas boolean-mask row selection `df[mask]`: if any mask entry is null the
operation raises `ValueError`; otherwise it keeps the rows whose entry is `True`. -/
def filterMask {α : Type} (m : α → Option Bool) (l : List α) : Except String (List α) :=
  if l.any (fun a => (m a).isNone) then
    Except.error "Cannot mask with non-boolean array containing NA / NaN values"
  else
    Except.ok (l.filter (fun a => m a == some true))

/-- Line 607/613/631: `st.session_state.get("username", "").lower() == "emp"`. -/
def isEmpUser (u : String) : Bool := lowerStr u == "emp"

/-- Lines 606-608: the 50/10 total is summed only when the caller is `emp`. -/
def fiftyTenOf (f : List OrderRecord) (u : String) : Int :=
  if isEmpUser u then (f.map (fun r => r.fiftyTen)).sum else 0

/-- The named quantities of the Invoice Summary block (src/main.py lines 573-646),
including the values that are formatted into the displayed card. -/
structure Summary where
  totalAmount : Int
  complaintAmount : Int
  staffTabAmount : Int
  prTabAmount : Int
  cancelledCodAmount : Int
  cancelledCardAmount : Int
  codTotal : Int
  cardTotal : Int
  fiftyTenTotal : Int
  riderPayouts : Int
  riderCashSubmitted : Int
  netAfterCancel : Int
  finalNetCollection : Int
  cardVerification : Int
  codTotalDisplay : Int
  finalNetCod : Int
deriving DecidableEq

/-- Assembles the summary from the four mask-filtered sums, mirroring
src/main.py lines 573-646 term by term. -/
def mkSummary (f : List OrderRecord) (u : String)
    (cancelledCodAmount cancelledCardAmount codSum cardSum : Int) : Summary :=
  let complaintAmount := sumAmount (f.filter complaintMask)
  let staffTabAmount := sumAmount (f.filter (tabMask "staff tab"))
  let prTabAmount := sumAmount (f.filter (tabMask "pr tab"))
  let totalAmount := sumAmount f
  let riderPayouts := (f.map (fun r => r.payout)).sum
  let riderCashSubmitted := (f.map (fun r => r.riderCashSubmitted)).sum
  let fiftyTenTotal := fiftyTenOf f u
  let codTotal := if isEmpUser u then codSum - fiftyTenTotal else codSum
  let cardTotal := cardSum
  let netAfterCancel := totalAmount - cancelledCodAmount - cancelledCardAmount
  let finalNetCollection :=
    if isEmpUser u then
      netAfterCancel - complaintAmount - staffTabAmount - riderCashSubmitted
        - riderPayouts - prTabAmount - cardTotal - fiftyTenTotal
    else
      netAfterCancel - complaintAmount - staffTabAmount - riderCashSubmitted
        - riderPayouts - prTabAmount - cardTotal
  let dum := codTotal + prTabAmount + staffTabAmount + complaintAmount
  { totalAmount := totalAmount
    complaintAmount := complaintAmount
    staffTabAmount := staffTabAmount
    prTabAmount := prTabAmount
    cancelledCodAmount := cancelledCodAmount
    cancelledCardAmount := cancelledCardAmount
    codTotal := codTotal
    cardTotal := cardTotal
    fiftyTenTotal := fiftyTenTotal
    riderPayouts := riderPayouts
    riderCashSubmitted := riderCashSubmitted
    netAfterCancel := netAfterCancel
    finalNetCollection := finalNetCollection
    cardVerification := cardTotal - cancelledCardAmount
    codTotalDisplay := if isEmpUser u then dum + fiftyTenTotal else dum
    finalNetCod := dum - prTabAmount - staffTabAmount - complaintAmount
      - cancelledCodAmount - riderPayouts - riderCashSubmitted }

/-- The Invoice Summary computation over the final filtered record set
(src/main.py lines 573-646).  The four `str.contains` masks at lines 597-602
carry no `na=False`, so any null invoice type reaching them makes the pandas
row selection raise; this is the only failure the block can produce. -/
def invoiceSummary (filtered : List OrderRecord) (username : String) :
    Except String Summary :=
  match filterMask (payMaskOpt "cod") (filtered.filter cancelMask) with
  | Except.error e => Except.error e
  | Except.ok cancelledCodDf =>
    match filterMask (payMaskOpt "card") (filtered.filter cancelMask) with
    | Except.error e => Except.error e
    | Except.ok cancelledCardDf =>
      match filterMask (payMaskOpt "cod") (filtered.filter validMask) with
      | Except.error e => Except.error e
      | Except.ok codDf =>
        match filterMask (payMaskOpt "card") (filtered.filter validMask) with
        | Except.error e => Except.error e
        | Except.ok cardDf =>
          Except.ok (mkSummary filtered username (sumAmount cancelledCodDf)
            (sumAmount cancelledCardDf) (sumAmount codDf) (sumAmount cardDf))

/-- A record of the worked scenario of spec section 8. -/
def mkDemoRec (inv : String) (amt : Int) (pay : Int) (status : String) : OrderRecord :=
  { date := some 1, rider := some "R1", invoiceType := some inv, shiftType := some "Day",
    orderStatus := some status, totalAmount := amt, payout := pay,
    riderCashSubmitted := 0, fiftyTen := 0, branch := "Phase 6" }

/-- The three-record snapshot of the worked scenario. -/
def demoRecords : List OrderRecord :=
  [ mkDemoRec "COD" 1000 80 "Completed",
    mkDemoRec "Card" 500 0 "Cancel Order",
    mkDemoRec "Complaint Order" 200 0 "Completed" ]

/-- The summary the engine produces on `demoRecords` for a non-Emporium caller. -/
def demoSummaryP6 : Summary :=
  { totalAmount := 1700, complaintAmount := 200, staffTabAmount := 0, prTabAmount := 0,
    cancelledCodAmount := 0, cancelledCardAmount := 500,
    codTotal := 1000, cardTotal := 500, fiftyTenTotal := 0,
    riderPayouts := 80, riderCashSubmitted := 0,
    netAfterCancel := 1200, finalNetCollection := 420,
    cardVerification := 0, codTotalDisplay := 1200, finalNetCod := 920 }

/-- A valid record whose invoice type contains "pr tab" as a substring and
also contains "card": line 587 keeps it in `filtered_df_valid` (the `isin`
test is an equality test against the two literals), so it feeds `card_total`. -/
def recPrTabCard : OrderRecord :=
  { date := some 1, rider := some "R1", invoiceType := some "PR Tab Card",
    shiftType := some "Day", orderStatus := some "Completed", totalAmount := 100,
    payout := 0, riderCashSubmitted := 0, fiftyTen := 0, branch := "Phase 6" }

/-- An Emporium-branch record carrying a 50/10 parking-fee value. -/
def recC6 : OrderRecord :=
  { date := some 1, rider := some "R1", invoiceType := some "COD",
    shiftType := some "Day", orderStatus := some "Completed", totalAmount := 100,
    payout := 0, riderCashSubmitted := 0, fiftyTen := 10, branch := "Emporium" }

/-- The summary the engine produces on `[recC6]` for the `emp` caller. -/
def sC6 : Summary := mkSummary [recC6] "emp" 0 0 100 0

/-- A record whose invoice type is null, as produced by `load_data` when the
`Invoice Type` column is absent and synthesized with `None` (lines 201-203). -/
def recNullInvoice : OrderRecord :=
  { date := some 1, rider := some "R1", invoiceType := none,
    shiftType := some "Day", orderStatus := some "Completed", totalAmount := 100,
    payout := 0, riderCashSubmitted := 0, fiftyTen := 0, branch := "Phase 6" }

/-- Lexicographic character-list comparison used to sort option lists. -/
def charListLe : List Char → List Char → Bool
  | [], _ => true
  | _ :: _, [] => false
  | a :: as, b :: bs => if a < b then true else if b < a then false else charListLe as bs

def strLeB (a b : String) : Bool := charListLe a.toList b.toList

def insertSorted (x : String) : List String → List String
  | [] => [x]
  | y :: ys => if strLeB x y then x :: y :: ys else y :: insertSorted x ys

def sortStrs : List String → List String
  | [] => []
  | x :: xs => insertSorted x (sortStrs xs)

/-- pandas `.unique()`: first-seen occurrence of each value. -/
def dedupFirst : List String → List String
  | [] => []
  | x :: xs => x :: (dedupFirst xs).filter (fun y => y != x)

/-- `sorted(series.dropna().unique().tolist())` over an option column. -/
def distinctSorted (l : List String) : List String := sortStrs (dedupFirst l)

/-- Lines 323-326: the date-bounded base set (null dates excluded, bounds
inclusive).  Dates are modelled as day numbers. -/
def dateOkB (s e : Nat) (r : OrderRecord) : Bool :=
  match r.date with
  | none => false
  | some d => decide (s ≤ d) && decide (d ≤ e)

def baseOf (df : List OrderRecord) (s e : Nat) : List OrderRecord :=
  df.filter (dateOkB s e)

/-- pandas `series.isin(sel)`: a null cell is never a member. -/
def memOpt (v : Option String) (sel : List String) : Bool :=
  match v with
  | none => false
  | some x => sel.contains x

def invoiceOptionsOf (b : List OrderRecord) : List String :=
  distinctSorted (b.filterMap (fun r => r.invoiceType))

def shiftOptionsOf (l : List OrderRecord) : List String :=
  distinctSorted (l.filterMap (fun r => r.shiftType))

def riderOptionsOf (l : List OrderRecord) : List String :=
  distinctSorted (l.filterMap (fun r => r.rider))

/-- Lines 346/366: `lvl[col].isin(sel)] if sel else lvl` — an empty selection
imposes no restriction at the option-cascade stage. -/
def lvlRestrict (b : List OrderRecord) (f : OrderRecord → Option String)
    (sel : List String) : List OrderRecord :=
  if sel.isEmpty then b else b.filter (fun r => memOpt (f r) sel)

/-- Modelled from the documented behaviour of the external `st.multiselect`
widget when the user makes no change on the rerun: it returns its `default`
list, and it raises `StreamlitAPIException` when a default value is not among
`options`.  The rider level guards against that exception with an explicit
subset check (line 389); the invoice and shift levels (lines 338-343, 358-363)
pass the remembered selection unguarded. -/
def stMultiselect (options dflt : List String) : Except String (List String) :=
  if dflt.all (fun x => options.contains x) then Except.ok dflt
  else Except.error "Every Multiselect default value must exist in options"

/-- Lines 335-344 (and identically 355-364): the remembered selection is used
as the widget default when non-empty, the full option list otherwise; the
returned selection is persisted as `selected or options`. -/
def resolveSelection (remembered options : List String) : Except String (List String) :=
  match stMultiselect options (if remembered.isEmpty then options else remembered) with
  | Except.error e => Except.error e
  | Except.ok w => Except.ok (if w.isEmpty then options else w)

/-- Line 395-401: the final filtered frame, recomputed from `df` with the date
bounds and the three categorical `isin` filters, each applied only when the
corresponding option list is non-empty. -/
def finalFilteredDf (df : List OrderRecord) (s e : Nat)
    (selInv selShift selRiders invOpts shiftOpts riderOpts : List String) :
    List OrderRecord :=
  df.filter (fun r => dateOkB s e r
    && (if invOpts.isEmpty then true else memOpt r.invoiceType selInv)
    && (if shiftOpts.isEmpty then true else memOpt r.shiftType selShift)
    && (if riderOpts.isEmpty then true else memOpt r.rider selRiders))

/-- The state the cascading filter resolver leaves behind for one rerun. -/
structure ResolvedFilters where
  invoiceOptions : List String
  selInvoice : List String
  shiftOptions : List String
  selShifts : List String
  riderOptions : List String
  selRiders : List String
  filtered : List OrderRecord
deriving DecidableEq

/-- One rerun of the sidebar pipeline (lines 319-401) in the state right after
the "Clear All Riders" button: the remembered rider selection is `[]`, which is
a subset of any rider option list, so the rider widget keeps it and line 392
persists the empty list. -/
def pipelineAfterClearAll (df : List OrderRecord) (s e : Nat)
    (remInv remShift : List String) : Except String ResolvedFilters :=
  match resolveSelection remInv (invoiceOptionsOf (baseOf df s e)) with
  | Except.error err => Except.error err
  | Except.ok selInv =>
    match resolveSelection remShift
        (shiftOptionsOf (lvlRestrict (baseOf df s e) (fun r => r.invoiceType) selInv)) with
    | Except.error err => Except.error err
    | Except.ok selShift =>
      Except.ok
        { invoiceOptions := invoiceOptionsOf (baseOf df s e)
          selInvoice := selInv
          shiftOptions := shiftOptionsOf
            (lvlRestrict (baseOf df s e) (fun r => r.invoiceType) selInv)
          selShifts := selShift
          riderOptions := riderOptionsOf
            (lvlRestrict (lvlRestrict (baseOf df s e) (fun r => r.invoiceType) selInv)
              (fun r => r.shiftType) selShift)
          selRiders := []
          filtered := finalFilteredDf df s e selInv selShift []
            (invoiceOptionsOf (baseOf df s e))
            (shiftOptionsOf (lvlRestrict (baseOf df s e) (fun r => r.invoiceType) selInv))
            (riderOptionsOf
              (lvlRestrict (lvlRestrict (baseOf df s e) (fun r => r.invoiceType) selInv)
                (fun r => r.shiftType) selShift)) }

/-- A one-record frame used to exercise the clear-all behaviour. -/
def recC3 : OrderRecord :=
  { date := some 5, rider := some "R1", invoiceType := some "COD",
    shiftType := some "Morning", orderStatus := some "Completed", totalAmount := 100,
    payout := 0, riderCashSubmitted := 0, fiftyTen := 0, branch := "Phase 6" }

/-- The resolver state produced on `[recC3]` after "Clear All Riders". -/
def rfC3 : ResolvedFilters :=
  { invoiceOptions := ["COD"], selInvoice := ["COD"],
    shiftOptions := ["Morning"], selShifts := ["Morning"],
    riderOptions := ["R1"], selRiders := [], filtered := [] }

/-- A raw spreadsheet cell as `get_as_dataframe` delivers it. -/
inductive Cell where
  | str (v : String)
  | intv (v : Int)
  | blank
deriving DecidableEq

def cellIsBlank : Cell → Bool
  | Cell.blank => true
  | _ => false

/-- Line 190's predicate: `isinstance(x, str) and '#REF!' in x`. -/
def cellHasRefMarker : Cell → Bool
  | Cell.str v => strHasSub "#REF!" v
  | _ => false

/-- Line 188: `df.dropna(how="all")`. -/
def dropAllBlankRows (t : List (List Cell)) : List (List Cell) :=
  t.filter (fun row => !(row.all cellIsBlank))

def numCols (t : List (List Cell)) : Nat := (t.map List.length).foldr Nat.max 0

def colIsAllBlank (t : List (List Cell)) (j : Nat) : Bool :=
  t.all (fun row => cellIsBlank (row.getD j Cell.blank))

/-- Line 189: `df.dropna(axis=1, how="all")` — drops columns, keeps every row. -/
def dropAllBlankCols (t : List (List Cell)) : List (List Cell) :=
  t.map (fun row =>
    ((List.range (numCols t)).filter (fun j => !(colIsAllBlank t j))).map
      (fun j => row.getD j Cell.blank))

/-- Line 190: `df = df[~df.applymap(lambda x: isinstance(x, str) and '#REF!' in x)].copy()`.
Indexing a frame with a boolean DataFrame is pandas `where`: every cell whose
mask entry is `False` is replaced by NaN, and no row is removed. -/
def maskRefCells (t : List (List Cell)) : List (List Cell) :=
  t.map (List.map (fun c => if cellHasRefMarker c then Cell.blank else c))

/-- The row-shape part of `load_data` normalization (lines 188-190). -/
def loadNormalize (t : List (List Cell)) : List (List Cell) :=
  maskRefCells (dropAllBlankCols (dropAllBlankRows t))

/-- The number of rows the normalized snapshot exposes to every metric. -/
def loadRowCount (t : List (List Cell)) : Nat := (loadNormalize t).length

/-- C1: on the three-record worked scenario — (COD, 1000, payout 80, completed),
(Card, 500, payout 0, cancel order), (Complaint Order, 200, payout 0, completed) —
with gross computed over the entire filtered set, the engine's
`final_net_collection` equals 420, which is the gross total minus the cancelled
COD amount, cancelled card amount, complaint amount, staff-tab amount, PR-tab
amount, rider cash submitted, payout total and card total. -/
theorem c1_worked_scenario_final_net :
    invoiceSummary demoRecords "p6" = Except.ok demoSummaryP6 ∧
    demoSummaryP6.finalNetCollection = 420 ∧
    demoSummaryP6.finalNetCollection =
      demoSummaryP6.totalAmount - demoSummaryP6.cancelledCodAmount
        - demoSummaryP6.cancelledCardAmount - demoSummaryP6.complaintAmount
        - demoSummaryP6.staffTabAmount - demoSummaryP6.prTabAmount
        - demoSummaryP6.riderCashSubmitted - demoSummaryP6.riderPayouts
        - demoSummaryP6.cardTotal := by
  refine ⟨?_, rfl, rfl⟩
  rfl

/-- A successful pandas boolean-mask selection keeps exactly the rows whose
mask entry is `True`. -/
theorem filterMask_ok {α : Type} {m : α → Option Bool} {l l' : List α}
    (h : filterMask m l = Except.ok l') :
    l' = l.filter (fun a => m a == some true) := by
  unfold filterMask at h
  split at h
  · exact Except.noConfusion h
  · exact ((Except.ok.injEq _ _).mp h).symm

/-- Composing two list filters is one filter by the conjunction. -/
theorem filter_filter_bool {α : Type} (p q : α → Bool) (l : List α) :
    (l.filter p).filter q = l.filter (fun a => p a && q a) := by
  induction l with
  | nil => rfl
  | cons a t ih =>
    by_cases hp : p a
    · by_cases hq : q a <;> simp [List.filter_cons, hp, hq, ih]
    · simp [List.filter_cons, hp, ih]

/-- A filter by a pointwise-stronger predicate keeps at most as many rows. -/
theorem filter_mono_length {α : Type} (l : List α) (p q : α → Bool)
    (h : ∀ a, p a = true → q a = true) :
    (l.filter p).length ≤ (l.filter q).length := by
  induction l with
  | nil => exact Nat.le_refl 0
  | cons a t ih =>
    simp only [List.filter_cons]
    by_cases hp : p a = true
    · rw [if_pos hp, if_pos (h a hp)]
      simpa using ih
    · rw [if_neg hp]
      by_cases hq : q a = true
      · rw [if_pos hq]
        simp only [List.length_cons]
        exact Nat.le_succ_of_le ih
      · rw [if_neg hq]
        exact ih

/-- A filter by an everywhere-false predicate is empty. -/
theorem filter_false_of_all {α : Type} (l : List α) (p : α → Bool)
    (h : ∀ a, p a = false) : l.filter p = [] := by
  induction l with
  | nil => rfl
  | cons a t ih => simp [List.filter_cons, h a, ih]

theorem mkSummary_cardTotal (f : List OrderRecord) (u : String) (a b c d : Int) :
    (mkSummary f u a b c d).cardTotal = d := rfl

theorem mkSummary_codTotal (f : List OrderRecord) (u : String) (a b c d : Int) :
    (mkSummary f u a b c d).codTotal = if isEmpUser u then c - fiftyTenOf f u else c := rfl

theorem mkSummary_fiftyTenTotal (f : List OrderRecord) (u : String) (a b c d : Int) :
    (mkSummary f u a b c d).fiftyTenTotal = fiftyTenOf f u := rfl

theorem mkSummary_cardVerification (f : List OrderRecord) (u : String) (a b c d : Int) :
    (mkSummary f u a b c d).cardVerification = d - b := rfl

theorem mkSummary_codTotalDisplay (f : List OrderRecord) (u : String) (a b c d : Int) :
    (mkSummary f u a b c d).codTotalDisplay =
      (if isEmpUser u then
        (mkSummary f u a b c d).codTotal + (mkSummary f u a b c d).prTabAmount
          + (mkSummary f u a b c d).staffTabAmount + (mkSummary f u a b c d).complaintAmount
          + (mkSummary f u a b c d).fiftyTenTotal
      else
        (mkSummary f u a b c d).codTotal + (mkSummary f u a b c d).prTabAmount
          + (mkSummary f u a b c d).staffTabAmount
          + (mkSummary f u a b c d).complaintAmount) := rfl

theorem mkSummary_finalNetCod (f : List OrderRecord) (u : String) (a b c d : Int) :
    (mkSummary f u a b c d).finalNetCod =
      ((mkSummary f u a b c d).codTotal + (mkSummary f u a b c d).prTabAmount
        + (mkSummary f u a b c d).staffTabAmount + (mkSummary f u a b c d).complaintAmount)
      - (mkSummary f u a b c d).prTabAmount - (mkSummary f u a b c d).staffTabAmount
      - (mkSummary f u a b c d).complaintAmount - (mkSummary f u a b c d).cancelledCodAmount
      - (mkSummary f u a b c d).riderPayouts
      - (mkSummary f u a b c d).riderCashSubmitted := rfl

/-- Inversion for a successful Invoice Summary computation: the produced
summary is `mkSummary` applied to the four mask-filtered sums. -/
theorem invoiceSummary_ok_elim (filtered : List OrderRecord) (username : String)
    (s : Summary) (h : invoiceSummary filtered username = Except.ok s) :
    s = mkSummary filtered username
      (sumAmount ((filtered.filter cancelMask).filter
        (fun a => payMaskOpt "cod" a == some true)))
      (sumAmount ((filtered.filter cancelMask).filter
        (fun a => payMaskOpt "card" a == some true)))
      (sumAmount ((filtered.filter validMask).filter
        (fun a => payMaskOpt "cod" a == some true)))
      (sumAmount ((filtered.filter validMask).filter
        (fun a => payMaskOpt "card" a == some true))) := by
  unfold invoiceSummary at h
  split at h
  · exact Except.noConfusion h
  rename_i cancelledCodDf h1
  split at h
  · exact Except.noConfusion h
  rename_i cancelledCardDf h2
  split at h
  · exact Except.noConfusion h
  rename_i codDf h3
  split at h
  · exact Except.noConfusion h
  rename_i cardDf h4
  injection h with hs
  rw [← hs, filterMask_ok h1, filterMask_ok h2, filterMask_ok h3, filterMask_ok h4]

/-- C2 counterexample: the record with invoice type "PR Tab Card" (which
contains "pr tab" as a substring) stays in `filtered_df_valid` — line 587
tests equality against 'complaint order'/'staff tab' only — and therefore
contributes its full amount to `card_total`, while the claim says such a
record contributes to neither `cod_total` nor `card_total`. -/
theorem c2_counterexample :
    Except.map (fun s => (s.cardTotal, s.codTotal)) (invoiceSummary [recPrTabCard] "p6") =
      Except.ok ((100 : Int), (0 : Int)) ∧ (100 : Int) ≠ 0 := ⟨rfl, by decide⟩

/-- C2 (amended): `valid` excludes exactly the records whose lowercased
invoice type is literally 'complaint order' or 'staff tab' (no substring
matching, and "pr tab" records are not excluded); `card_total`, and
`cod_total` with the Emporium 50/10 subtraction added back, are the sums of
total_amount over those valid records whose lowercased type contains
"card" resp. "cod". -/
theorem c2_valid_partition_amended (filtered : List OrderRecord) (username : String)
    (s : Summary) (h : invoiceSummary filtered username = Except.ok s) :
    s.cardTotal =
      sumAmount (filtered.filter (fun r => validMask r && payMaskOpt "card" r == some true)) ∧
    s.codTotal + s.fiftyTenTotal =
      sumAmount (filtered.filter (fun r => validMask r && payMaskOpt "cod" r == some true)) := by
  have hs := invoiceSummary_ok_elim filtered username s h
  subst hs
  constructor
  · rw [mkSummary_cardTotal, filter_filter_bool]
  · rw [mkSummary_codTotal, mkSummary_fiftyTenTotal, filter_filter_bool]
    unfold fiftyTenOf
    by_cases hE : isEmpUser username = true
    · simp only [if_pos hE]
      omega
    · simp only [if_neg hE]
      omega

/-- C2 witness: the amended statement instantiated on the worked scenario. -/
theorem c2_witness :
    invoiceSummary demoRecords "p6" = Except.ok demoSummaryP6 ∧
    (demoSummaryP6.cardTotal =
      sumAmount (demoRecords.filter (fun r => validMask r && payMaskOpt "card" r == some true)) ∧
    demoSummaryP6.codTotal + demoSummaryP6.fiftyTenTotal =
      sumAmount (demoRecords.filter (fun r => validMask r && payMaskOpt "cod" r == some true))) :=
  ⟨rfl, c2_valid_partition_amended demoRecords "p6" demoSummaryP6 rfl⟩

/-- C5 counterexample: on the worked scenario the displayed
"Final Net Collection (Card Verification)" value is 0 while `card_total`
is 500, so the displayed figure is not `card_total` alone. -/
theorem c5_counterexample :
    Except.map (fun s => (s.cardVerification, s.cardTotal)) (invoiceSummary demoRecords "p6") =
      Except.ok ((0 : Int), (500 : Int)) ∧ (0 : Int) ≠ 500 := ⟨rfl, by decide⟩

/-- C5 (amended): the reported "Final Net Collection (Card Verification)"
equals `card_total` minus `cancelled_card_amount` (line 626), i.e. the sum of
amounts over valid card records minus the sum over cancelled card records. -/
theorem c5_card_verification_amended (filtered : List OrderRecord) (username : String)
    (s : Summary) (h : invoiceSummary filtered username = Except.ok s) :
    s.cardVerification =
      sumAmount (filtered.filter (fun r => validMask r && payMaskOpt "card" r == some true))
      - sumAmount (filtered.filter (fun r => cancelMask r && payMaskOpt "card" r == some true)) := by
  have hs := invoiceSummary_ok_elim filtered username s h
  subst hs
  rw [mkSummary_cardVerification, filter_filter_bool, filter_filter_bool]

/-- C5 witness: the amended statement instantiated on the worked scenario. -/
theorem c5_witness :
    invoiceSummary demoRecords "p6" = Except.ok demoSummaryP6 ∧
    demoSummaryP6.cardVerification =
      sumAmount (demoRecords.filter (fun r => validMask r && payMaskOpt "card" r == some true))
      - sumAmount (demoRecords.filter (fun r => cancelMask r && payMaskOpt "card" r == some true)) :=
  ⟨rfl, c5_card_verification_amended demoRecords "p6" demoSummaryP6 rfl⟩

/-- C6 counterexample: an Emporium-branch record with a 50/10 value of 10,
computed under the admin caller, receives no parking-fee deduction
(`fifty_ten_total` is 0 and `cod_total` keeps the full 100): the deduction is
keyed off the caller's username, not the record's branch tag. -/
theorem c6_counterexample :
    recC6.branch = "Emporium" ∧ recC6.fiftyTen = 10 ∧
    Except.map (fun s => (s.fiftyTenTotal, s.codTotal)) (invoiceSummary [recC6] "admin") =
      Except.ok ((0 : Int), (100 : Int)) := ⟨rfl, rfl, rfl⟩

/-- C6 (amended): the 50/10 parking-fee total is summed (over every filtered
record, regardless of its branch tag) exactly when the caller's lowercased
username is "emp", and is 0 for every other caller. -/
theorem c6_parking_fee_amended (filtered : List OrderRecord) (username : String)
    (s : Summary) (h : invoiceSummary filtered username = Except.ok s) :
    s.fiftyTenTotal =
      (if isEmpUser username then (filtered.map (fun r => r.fiftyTen)).sum else 0) := by
  have hs := invoiceSummary_ok_elim filtered username s h
  subst hs
  rw [mkSummary_fiftyTenTotal]
  rfl

/-- C6 witness: the amended statement instantiated for the `emp` caller on the
Emporium record. -/
theorem c6_witness :
    invoiceSummary [recC6] "emp" = Except.ok sC6 ∧
    sC6.fiftyTenTotal =
      (if isEmpUser "emp" then (([recC6]).map (fun r => r.fiftyTen)).sum else 0) :=
  ⟨rfl, c6_parking_fee_amended [recC6] "emp" sC6 rfl⟩

/-- C8: a filtered set containing a record whose invoice type is null (as
`load_data` produces when the column is synthesized) makes the metrics
computation raise — the unguarded `str.contains` masks of lines 597-602 put a
NaN into a boolean row selection — instead of degrading to a default. -/
theorem c8_null_invoice_raises :
    invoiceSummary [recNullInvoice] "p6" =
      Except.error "Cannot mask with non-boolean array containing NA / NaN values" := rfl

/-- C10: the displayed "COD Total Amount" equals `cod_total` plus the PR-tab,
staff-tab and complaint amounts with the parking-fee total netted back in
(`fifty_ten_total` being 0 for non-Emporium callers), and the displayed
"Final Net Collection (COD)" equals `cod_total` minus the cancelled-COD
amount, the payout total and the rider cash submitted. -/
theorem c10_cod_display_formulas (filtered : List OrderRecord) (username : String)
    (s : Summary) (h : invoiceSummary filtered username = Except.ok s) :
    s.codTotalDisplay = s.codTotal + s.prTabAmount + s.staffTabAmount
      + s.complaintAmount + s.fiftyTenTotal ∧
    s.finalNetCod = s.codTotal - s.cancelledCodAmount - s.riderPayouts
      - s.riderCashSubmitted := by
  have hs := invoiceSummary_ok_elim filtered username s h
  subst hs
  constructor
  · rw [mkSummary_codTotalDisplay, mkSummary_fiftyTenTotal]
    unfold fiftyTenOf
    by_cases hE : isEmpUser username = true
    · simp only [if_pos hE]
    · simp only [if_neg hE]
      omega
  · rw [mkSummary_finalNetCod]
    omega

/-- C10 witness: the display formulas instantiated on the worked scenario. -/
theorem c10_witness :
    invoiceSummary demoRecords "p6" = Except.ok demoSummaryP6 ∧
    (demoSummaryP6.codTotalDisplay = demoSummaryP6.codTotal + demoSummaryP6.prTabAmount
      + demoSummaryP6.staffTabAmount + demoSummaryP6.complaintAmount
      + demoSummaryP6.fiftyTenTotal ∧
    demoSummaryP6.finalNetCod = demoSummaryP6.codTotal - demoSummaryP6.cancelledCodAmount
      - demoSummaryP6.riderPayouts - demoSummaryP6.riderCashSubmitted) :=
  ⟨rfl, c10_cod_display_formulas demoRecords "p6" demoSummaryP6 rfl⟩

/-- C9: applying the categorical filters never adds records — the final
filtered set (line 395-401) has at most as many records as the date-bounded
base set (lines 323-326), for every snapshot, date range and selection. -/
theorem c9_filters_only_narrow (df : List OrderRecord) (s e : Nat)
    (selInv selShift selRiders invOpts shiftOpts riderOpts : List String) :
    (finalFilteredDf df s e selInv selShift selRiders invOpts shiftOpts riderOpts).length ≤
      (baseOf df s e).length := by
  unfold finalFilteredDf baseOf
  apply filter_mono_length
  intro r hr
  simp only [Bool.and_eq_true] at hr
  exact hr.1.1.1

/-- C4: a one-row table whose cell is the literal "#REF!" marker survives
normalization — `df[~df.applymap(...)]` masks with a boolean DataFrame, which
only replaces the offending cells by NaN — so the row still counts downstream,
while the claim requires it to be entirely absent. -/
theorem c4_ref_row_retained :
    loadNormalize [[Cell.str "#REF!"]] = [[Cell.blank]] ∧
    loadRowCount [[Cell.str "#REF!"]] = 1 := ⟨rfl, rfl⟩

/-- C7 counterexample: with remembered selection ["A", "B"] and option set
["A"] the intersection ["A"] is non-empty, so the claim predicts the resolved
selection ["A"]; the code instead passes the stale remembered list as the
widget default, which errors because "B" is not among the options. -/
theorem c7_counterexample :
    resolveSelection ["A", "B"] ["A"] =
      Except.error "Every Multiselect default value must exist in options" := rfl

/-- C7 (amended): at the invoice-type and shift levels no intersection is
computed.  When resolution succeeds, the resolved selection is the remembered
selection if that is non-empty (which then must already be a subset of the
options) and the full option set if the remembered selection is empty; it is
never empty while options exist.  A remembered selection containing a value
outside the option set makes the widget raise instead of falling back. -/
theorem c7_resolve_amended (remembered options sel : List String)
    (h : resolveSelection remembered options = Except.ok sel) :
    sel = (if remembered.isEmpty then options else remembered) ∧
    (remembered.isEmpty = false →
      remembered.all (fun x => options.contains x) = true) ∧
    (options ≠ [] → sel ≠ []) := by
  unfold resolveSelection stMultiselect at h
  split at h
  · exact Except.noConfusion h
  rename_i w hw
  injection h with hs
  split at hw
  · rename_i hre
    split at hw
    · injection hw with hww
      subst hww
      rw [ite_self] at hs
      subst hs
      refine ⟨(if_pos hre).symm, ?_, fun h0 => h0⟩
      intro habs
      rw [hre] at habs
      exact Bool.noConfusion habs
    · exact Except.noConfusion hw
  · rename_i hre
    split at hw
    · rename_i hall
      injection hw with hww
      subst hww
      rw [if_neg hre] at hs
      subst hs
      refine ⟨(if_neg hre).symm, fun _ => hall, ?_⟩
      intro h0 habs
      exact hre (by rw [habs]; rfl)
    · exact Except.noConfusion hw

/-- C7 witness: the amended statement instantiated at a remembered selection
that is a non-empty subset of the options. -/
theorem c7_witness :
    resolveSelection ["A"] ["A", "B"] = Except.ok ["A"] ∧
    ((["A"] : List String) = (if (["A"] : List String).isEmpty then ["A", "B"] else ["A"]) ∧
     ((["A"] : List String).isEmpty = false →
       (["A"] : List String).all (fun x => (["A", "B"] : List String).contains x) = true) ∧
     ((["A", "B"] : List String) ≠ [] → (["A"] : List String) ≠ [])) :=
  ⟨rfl, c7_resolve_amended ["A"] ["A", "B"] ["A"] rfl⟩

/-- The final filter with a non-empty rider option list and an empty rider
selection keeps no record: every row fails the `isin([])` conjunct. -/
theorem finalFilteredDf_empty_riders (df : List OrderRecord) (s e : Nat)
    (selInv selShift invOpts shiftOpts riderOpts : List String)
    (hr : riderOpts ≠ []) :
    finalFilteredDf df s e selInv selShift [] invOpts shiftOpts riderOpts = [] := by
  unfold finalFilteredDf
  apply filter_false_of_all
  intro r
  have hO : riderOpts.isEmpty = false := by
    cases riderOpts with
    | nil => exact absurd rfl hr
    | cons x xs => rfl
  have hmem : memOpt r.rider [] = false := by
    cases r.rider with
    | none => rfl
    | some x => rfl
  simp [hO, hmem]

/-- C3 counterexample: a snapshot with one record (rider "R1") where, after
"Clear All Riders", the rider option list is non-empty but the final filtered
set is empty — not the all-riders set the claim requires. -/
theorem c3_counterexample :
    pipelineAfterClearAll [recC3] 0 10 [] [] = Except.ok rfC3 ∧
    rfC3.riderOptions = ["R1"] ∧ rfC3.filtered = [] := ⟨rfl, rfl, rfl⟩

/-- C3 (amended): after an explicit "Clear All Riders", whenever the rider
option list is non-empty the final filtered record set is empty — the
persisted empty rider selection is applied as an `isin` filter that excludes
every record; only when the rider option list itself is empty does the rider
level impose no filter. -/
theorem c3_clear_all_amended (df : List OrderRecord) (s e : Nat)
    (remInv remShift : List String) (st : ResolvedFilters)
    (h : pipelineAfterClearAll df s e remInv remShift = Except.ok st)
    (hr : st.riderOptions ≠ []) : st.filtered = [] := by
  unfold pipelineAfterClearAll at h
  split at h
  · exact Except.noConfusion h
  rename_i selInv h1
  split at h
  · exact Except.noConfusion h
  rename_i selShift h2
  injection h with hs
  subst hs
  exact finalFilteredDf_empty_riders _ _ _ _ _ _ _ _ hr

/-- C3 witness: the amended statement instantiated on the one-record snapshot. -/
theorem c3_witness :
    pipelineAfterClearAll [recC3] 0 10 [] [] = Except.ok rfC3 ∧
    rfC3.riderOptions ≠ [] ∧ rfC3.filtered = [] :=
  ⟨rfl, by decide, c3_clear_all_amended [recC3] 0 10 [] [] rfC3 rfl (by decide)⟩
